import Mathlib

/-!
Verification of the Ethical-AI digital-phenotype prototype.

Shallow embedding of the risk-inference pipeline:
  * `model.py`            : `calibrate_confidence` (np.max / np.argmax over the
                            probability distribution; the optional
                            `input_features` argument is accepted but unused).
  * `risk_tracker.py`     : `RiskTracker` (a `deque(maxlen=history_size)` of
                            prediction records, default `history_size=7`),
                            `add_prediction`, `get_trend`, `reset`.
  * `data_simulation.py`  : the per-day `current_risk_factor` drift of
                            `generate_digital_phenotype_stream` (the sampled
                            signals themselves are random and stay opaque).
  * `app.py`              : the pure serving logic of the `analyze` endpoint
                            (stream-cursor selection, manual-mode confidence
                            penalty, trend tracking, response fields) and the
                            `reset_simulation` endpoint.

Python floats are modelled by exact rationals `ℚ`; all constants involved
(0.8, 0.15, 0.4, probabilities) are treated with real-number arithmetic.
The fitted sklearn objects (scaler, RandomForest, LabelEncoder) are opaque
learned artifacts: they are carried as function-valued fields of the system
state, exactly as the serving code treats them.
-/

namespace EthicalAI

/-! ### model.py -/

/-- `np.max` over a list of rationals (the probability vector is nonempty in
every call site; the `[]` value 0 is never exercised). -/
def listMax : List ℚ → ℚ
  | [] => 0
  | x :: xs => xs.foldl max x

/-- Accumulator loop of `np.argmax`: scans left to right, keeping the first
index attaining the running maximum (NumPy returns the first maximal index). -/
def argmaxGo : List ℚ → ℕ → ℚ → ℕ → ℕ
  | [], _, _, best_idx => best_idx
  | x :: xs, i, best_val, best_idx =>
    if best_val < x then argmaxGo xs (i + 1) x i
    else argmaxGo xs (i + 1) best_val best_idx

/-- `np.argmax` over a list of rationals. -/
def listArgmax : List ℚ → ℕ
  | [] => 0
  | x :: xs => argmaxGo xs 1 x 0

/-- `model.py` lines 36-57, `calibrate_confidence(prob_distribution,
input_features=None)`: returns `(np.max(prob_distribution),
np.argmax(prob_distribution))`.  The body never reads `input_features`. -/
def calibrate_confidence {α : Type} (prob_distribution : List ℚ)
    (input_features : Option α) : ℚ × ℕ :=
  (listMax prob_distribution, listArgmax prob_distribution)

/-! ### risk_tracker.py -/

/-- One entry of the tracker history: `{'label': ..., 'confidence': ...,
'probs': ...}` as appended by `add_prediction`. -/
structure PredictionRecord where
  label : String
  confidence : ℚ
  probs : List ℚ

/-- `RiskTracker`: `self.history = deque(maxlen=history_size)`, oldest first. -/
structure RiskTracker where
  history_size : ℕ
  history : List PredictionRecord

/-- `RiskTracker.__init__(self, history_size)`. -/
def RiskTracker.init (history_size : ℕ) : RiskTracker :=
  ⟨history_size, []⟩

/-- `RiskTracker()` with the default argument `history_size=7`
(risk_tracker.py line 13). -/
def RiskTracker.init_default : RiskTracker :=
  RiskTracker.init 7

/-- `add_prediction`: `deque.append` on a `deque(maxlen=history_size)` —
appends on the right and evicts from the left whenever the length would
exceed `history_size`. -/
def RiskTracker.add_prediction (t : RiskTracker) (risk_label : String)
    (confidence : ℚ) (proba_distribution : List ℚ) : RiskTracker :=
  let h := t.history ++ [⟨risk_label, confidence, proba_distribution⟩]
  ⟨t.history_size,
    if t.history_size < h.length then h.drop (h.length - t.history_size) else h⟩

/-- `severity_map = {'Low': 0, 'Moderate': 1, 'Elevated': 2}` read through
`severity_map.get(label, 0)`: unknown labels fall back to 0. -/
def severity_map (label : String) : ℕ :=
  if label = "Low" then 0
  else if label = "Moderate" then 1
  else if label = "Elevated" then 2
  else 0

/-- The examined window of `get_trend` (risk_tracker.py lines 38-40):
`recent = list(self.history)[-3:]` followed by
`scores = [severity_map.get(item['label'], 0) for item in recent]`. -/
def trendScores (t : RiskTracker) : List ℕ :=
  (t.history.drop (t.history.length - 3)).map (fun item => severity_map item.label)

/-- `RiskTracker.get_trend` (risk_tracker.py lines 27-53): fewer than 2
records → "Insufficient Data"; otherwise map the last 3 records (or fewer) to
severities; all equal → "Stable"; last > first → "Increasing Trend";
last < first → "Improving Trend"; otherwise "Fluctuating". -/
def RiskTracker.get_trend (t : RiskTracker) : String :=
  if t.history.length < 2 then "Insufficient Data"
  else
    let scores := trendScores t
    if scores.all (fun x => x = scores.headD 0) then "Stable"
    else if scores.headD 0 < scores.getLastD 0 then "Increasing Trend"
    else if scores.getLastD 0 < scores.headD 0 then "Improving Trend"
    else "Fluctuating"

/-- `RiskTracker.reset`: `self.history.clear()` (capacity kept). -/
def RiskTracker.reset (t : RiskTracker) : RiskTracker :=
  ⟨t.history_size, []⟩

/-! ### data_simulation.py — risk-factor drift -/

/-- One iteration of the drift logic of `generate_digital_phenotype_stream`
(data_simulation.py lines 41-46): scenario-dependent update of
`current_risk_factor` followed by `min(current_risk_factor, 1.0)`.  Any
scenario other than "increasing_risk" and "improving" leaves the factor
unchanged. -/
def riskStep (risk_scenario : String) (n_days : ℕ) (day : ℕ) (current : ℚ) : ℚ :=
  let c :=
    if risk_scenario = "increasing_risk" then current + 8/10 / (n_days : ℚ)
    else if risk_scenario = "improving" then
      max 0 (8/10 - (day : ℚ) * (8/10 / (n_days : ℚ)))
    else current
  min c 1

/-- The loop `for day in range(n_days)` carrying `current_risk_factor`:
returns the list of risk factors in effect on each successive day (the value
each day applies to its sampled signals). -/
def riskFactorsFrom (risk_scenario : String) (n_days : ℕ) :
    ℕ → ℕ → ℚ → List ℚ
  | _, 0, _ => []
  | day, fuel + 1, current =>
    let c := riskStep risk_scenario n_days day current
    c :: riskFactorsFrom risk_scenario n_days (day + 1) fuel c

/-- The per-day `current_risk_factor` sequence of
`generate_digital_phenotype_stream(n_days, risk_scenario)`: day counter starts
at 0 and the factor starts at `0.0`. -/
def riskFactors (n_days : ℕ) (risk_scenario : String) : List ℚ :=
  riskFactorsFrom risk_scenario n_days 0 n_days 0

/-! ### app.py — serving logic -/

/-- Request mode: `data.get('mode', 'manual')`, either 'auto' or 'manual'. -/
inductive Mode where
  | auto
  | manual
  deriving DecidableEq

/-- The process-wide `STATE` dict.  The fitted sklearn artifacts are opaque
learned functions: `models` is the primary RandomForest's
`predict_proba(...)[0]` on one scaled sample, `scaler` is
`scaler.transform([...])[0]`, `label_encoder` is
`label_encoder.inverse_transform([...])[0]`.  `simulation_stream` holds the
pre-generated per-day feature rows. -/
structure SystemState where
  models : List ℚ → List ℚ
  scaler : List ℚ → List ℚ
  label_encoder : ℕ → String
  feature_cols : List String
  risk_tracker : RiskTracker
  current_day : ℕ
  simulation_stream : List (List ℚ)

/-- Data-source selection of `analyze` (app.py lines 75-100): auto mode reads
the stream row at `current_day % len(stream)` (always in range, so `getD`
never uses its default); manual mode takes the request's feature payload. -/
def inputUsed (mode : Mode) (manual_features : List ℚ) (s : SystemState) :
    List ℚ :=
  match mode with
  | .auto =>
      s.simulation_stream.getD (s.current_day % s.simulation_stream.length) []
  | .manual => manual_features

/-- The manual-mode confidence penalty `max(0.4, raw_conf - 0.15)`
(app.py line 121). -/
def manual_penalty (raw_conf : ℚ) : ℚ :=
  max (4/10) (raw_conf - 15/100)

/-- The fields of the `analyze` JSON response that the core computes
(status/explanation/feature list omitted: explanation text is a separate
component and the rest is marshaling). -/
structure AnalyzeResponse where
  day_index : ℤ
  risk_level : String
  confidence : ℚ
  trend : String

/-- The `analyze` endpoint (app.py lines 64-157), manual and auto mode:
select the input (advancing the cursor in auto mode), scale it, get the
probability vector from the primary model, calibrate, apply the manual
penalty if applicable, track history and compute the trend in auto mode only,
and report `current_day` after the advance (auto) or `-1` (manual). -/
def analyze (mode : Mode) (manual_features : List ℚ) (s : SystemState) :
    AnalyzeResponse × SystemState :=
  let input_features := inputUsed mode manual_features s
  let s1 := match mode with
    | .auto => { s with current_day := s.current_day + 1 }
    | .manual => s
  let input_scaled := s.scaler input_features
  let probs := s.models input_scaled
  let rc := calibrate_confidence probs (none : Option Unit)
  let raw_conf := rc.1
  let label_idx := rc.2
  let label_str := s.label_encoder label_idx
  let final_confidence :=
    if mode = Mode.manual then manual_penalty raw_conf else raw_conf
  let step :=
    if mode = Mode.auto then
      let tracker := s1.risk_tracker.add_prediction label_str final_confidence probs
      (RiskTracker.get_trend tracker, { s1 with risk_tracker := tracker })
    else ("N/A (Manual)", s1)
  (⟨if mode = Mode.auto then (step.2.current_day : ℤ) else -1,
    label_str, final_confidence, step.1⟩, step.2)

/-- The `reset_simulation` endpoint (app.py lines 163-167):
`STATE['risk_tracker'].reset()` and `STATE['current_day'] = 0`. -/
def reset_simulation (s : SystemState) : SystemState :=
  { s with risk_tracker := s.risk_tracker.reset, current_day := 0 }

/-- `n` consecutive auto-mode `analyze` calls threaded through the state. -/
def autoIter : ℕ → SystemState → SystemState
  | 0, s => s
  | n + 1, s => autoIter n (analyze Mode.auto [] s).2

/-! ### Formalisation auxiliaries (concrete states and normalisations) -/

/-- Fold a label sequence through `add_prediction` on a fresh tracker of
capacity 10 (the capacity `app.py` uses). -/
def trackerOf (labels : List String) : RiskTracker :=
  labels.foldl (fun t l => t.add_prediction l 1 []) (RiskTracker.init 10)

/-- Replace a record label falling outside the severity map's keys by "Low". -/
def normalize_record (r : PredictionRecord) : PredictionRecord :=
  ⟨if r.label = "Low" ∨ r.label = "Moderate" ∨ r.label = "Elevated" then r.label
    else "Low",
   r.confidence, r.probs⟩

/-- Replace every unknown label in the tracker history by "Low". -/
def normalize_unknown_labels (t : RiskTracker) : RiskTracker :=
  ⟨t.history_size, t.history.map normalize_record⟩

/-- A reachable system state whose primary model outputs the near-uniform
distribution [0.34, 0.33, 0.33] on the current stream row. -/
def autoLowConfState : SystemState :=
  { models := fun _ => [34/100, 33/100, 33/100]
    scaler := fun v => v
    label_encoder := fun _ => "Low"
    feature_cols := []
    risk_tracker := RiskTracker.init 10
    current_day := 0
    simulation_stream := [[0, 0, 0, 0, 0, 0]] }

/-- A system state whose primary model outputs [0.5, 0.25, 0.25]. -/
def manualHalfConfState : SystemState :=
  { models := fun _ => [1/2, 1/4, 1/4]
    scaler := fun v => v
    label_encoder := fun _ => "Low"
    feature_cols := []
    risk_tracker := RiskTracker.init 10
    current_day := 0
    simulation_stream := [[0, 0, 0, 0, 0, 0]] }

/-- A system state with a 30-day pre-generated stream, as built by
`initialize_system` (app.py line 54). -/
def demoState : SystemState :=
  { models := fun _ => [1, 0, 0]
    scaler := fun v => v
    label_encoder := fun _ => "Low"
    feature_cols := []
    risk_tracker := RiskTracker.init 10
    current_day := 0
    simulation_stream := List.replicate 30 [0, 0, 0, 0, 0, 0] }

/-- A tracker at full capacity 2, for exercising FIFO eviction. -/
def fullTracker : RiskTracker :=
  ⟨2, [⟨"Low", 1, []⟩, ⟨"Moderate", 1, []⟩]⟩

/-- A tracker whose history carries a label outside the severity map. -/
def oddTracker : RiskTracker :=
  ⟨10, [⟨"Low", 1, []⟩, ⟨"Glitch", 1, []⟩]⟩

/-! ## Helper lemmas -/

lemma listMax_triple (q0 q1 q2 : ℚ) : listMax [q0, q1, q2] = max (max q0 q1) q2 :=
  rfl

lemma calibrate_fst (q0 q1 q2 : ℚ) :
    (calibrate_confidence [q0, q1, q2] (none : Option Unit)).1
      = max (max q0 q1) q2 :=
  rfl

lemma listArgmax_triple (q0 q1 q2 : ℚ) :
    listArgmax [q0, q1, q2]
      = if q0 < q1 then (if q1 < q2 then 2 else 1)
        else (if q0 < q2 then 2 else 0) := by
  simp only [listArgmax, argmaxGo]

lemma analyze_confidence_auto (f : List ℚ) (s : SystemState) :
    (analyze Mode.auto f s).1.confidence
      = (calibrate_confidence (s.models (s.scaler (inputUsed Mode.auto f s)))
          (none : Option Unit)).1 :=
  rfl

lemma analyze_confidence_manual (f : List ℚ) (s : SystemState) :
    (analyze Mode.manual f s).1.confidence
      = manual_penalty
          ((calibrate_confidence (s.models (s.scaler f)) (none : Option Unit)).1) :=
  rfl

/-! ## Claim C2 -/

/-- Claim C2 (confirmed): for every probability distribution over the 3
labels, `calibrate_confidence` returns the maximum probability as confidence
and the index of that maximum as label index, ties broken by lowest index;
the manual-mode serving boundary then replaces a raw confidence c by
max(0.4, c - 0.15).  In particular `calibrate([0.2,0.5,0.3]) = (0.5, 1)`,
and the penalty maps 0.9 to 0.75 and 0.5 to 0.4. -/
theorem calibrate_is_argmax_with_manual_penalty (q0 q1 q2 : ℚ)
    (h0 : 0 ≤ q0) (h1 : 0 ≤ q1) (h2 : 0 ≤ q2) (hsum : q0 + q1 + q2 = 1) :
    (calibrate_confidence [q0, q1, q2] (none : Option Unit)).1
        = max q0 (max q1 q2) ∧
    ((calibrate_confidence [q0, q1, q2] (none : Option Unit)).2 = 0 ∧
        q0 = max q0 (max q1 q2) ∨
      (calibrate_confidence [q0, q1, q2] (none : Option Unit)).2 = 1 ∧
        q1 = max q0 (max q1 q2) ∧ q0 < max q0 (max q1 q2) ∨
      (calibrate_confidence [q0, q1, q2] (none : Option Unit)).2 = 2 ∧
        q2 = max q0 (max q1 q2) ∧ q0 < max q0 (max q1 q2) ∧
        q1 < max q0 (max q1 q2)) ∧
    calibrate_confidence [(2:ℚ)/10, 5/10, 3/10] (none : Option Unit)
        = (5/10, 1) ∧
    manual_penalty (9/10) = 75/100 ∧
    manual_penalty (5/10) = 4/10 ∧
    (∀ (f : List ℚ) (s : SystemState),
      (analyze Mode.manual f s).1.confidence
        = manual_penalty
            ((calibrate_confidence (s.models (s.scaler f))
              (none : Option Unit)).1)) := by
  refine ⟨?_, ?_, ?_, ?_, ?_, fun f s => analyze_confidence_manual f s⟩
  · rw [calibrate_fst]
    exact max_assoc q0 q1 q2
  · show listArgmax [q0, q1, q2] = 0 ∧ _ ∨
      listArgmax [q0, q1, q2] = 1 ∧ _ ∨ listArgmax [q0, q1, q2] = 2 ∧ _
    rw [listArgmax_triple]
    rcases lt_or_le q0 q1 with h01 | h01
    · rcases lt_or_le q1 q2 with h12 | h12
      · have hM : max q0 (max q1 q2) = q2 := by
          rw [max_eq_right h12.le, max_eq_right (h01.trans h12).le]
        refine Or.inr (Or.inr ?_)
        rw [if_pos h01, if_pos h12, hM]
        exact ⟨rfl, rfl, h01.trans h12, h12⟩
      · have hM : max q0 (max q1 q2) = q1 := by
          rw [max_eq_left h12, max_eq_right h01.le]
        refine Or.inr (Or.inl ?_)
        rw [if_pos h01, if_neg (not_lt.mpr h12), hM]
        exact ⟨rfl, rfl, h01⟩
    · rcases lt_or_le q0 q2 with h02 | h02
      · have hM : max q0 (max q1 q2) = q2 := by
          rw [max_eq_right (h01.trans h02.le), max_eq_right h02.le]
        refine Or.inr (Or.inr ?_)
        rw [if_neg (not_lt.mpr h01), if_pos h02, hM]
        exact ⟨rfl, rfl, h02, lt_of_le_of_lt h01 h02⟩
      · have hM : max q0 (max q1 q2) = q0 := by
          rw [max_eq_left (max_le h01 h02)]
        refine Or.inl ⟨?_, hM.symm⟩
        rw [if_neg (not_lt.mpr h01), if_neg (not_lt.mpr h02)]
  · norm_num [calibrate_confidence, listMax, listArgmax, argmaxGo, max_def]
  · norm_num [manual_penalty, max_def]
  · norm_num [manual_penalty, max_def]

/-- Witness for C2 at the spec's concrete distribution (0.2, 0.5, 0.3). -/
theorem calibrate_is_argmax_with_manual_penalty_witness :
    (0:ℚ) ≤ 2/10 ∧ (2:ℚ)/10 + 5/10 + 3/10 = 1 ∧
    calibrate_confidence [(2:ℚ)/10, 5/10, 3/10] (none : Option Unit)
      = (5/10, 1) ∧
    manual_penalty (9/10) = 75/100 := by
  have H := calibrate_is_argmax_with_manual_penalty (2/10) (5/10) (3/10)
    (by norm_num) (by norm_num) (by norm_num) (by norm_num)
  exact ⟨by norm_num, by norm_num, H.2.2.1, H.2.2.2.1⟩

/-! ## Claim C9 -/

/-- Claim C9 (confirmed): `calibrate_confidence` depends only on the
probability distribution — any two values of the optional `input_features`
argument (of any types) yield the same `(confidence, label_index)`. -/
theorem calibrate_confidence_ignores_input_features {α β : Type}
    (prob_distribution : List ℚ) (a : Option α) (b : Option β) :
    calibrate_confidence prob_distribution a
      = calibrate_confidence prob_distribution b :=
  rfl

/-! ## Claim C8 -/

/-- Claim C8 (confirmed): `reset_simulation` empties the tracker history and
zeroes the stream cursor, and leaves the models, scaler, label encoder,
feature names, pre-generated stream and tracker capacity unchanged. -/
theorem reset_frame_effect (s : SystemState) :
    (reset_simulation s).risk_tracker.history = [] ∧
    (reset_simulation s).current_day = 0 ∧
    (reset_simulation s).models = s.models ∧
    (reset_simulation s).scaler = s.scaler ∧
    (reset_simulation s).label_encoder = s.label_encoder ∧
    (reset_simulation s).feature_cols = s.feature_cols ∧
    (reset_simulation s).simulation_stream = s.simulation_stream ∧
    (reset_simulation s).risk_tracker.history_size
      = s.risk_tracker.history_size :=
  ⟨rfl, rfl, rfl, rfl, rfl, rfl, rfl, rfl⟩

/-! ## Claim C7 -/

/-- Claim C7 counterexample: the constructor default capacity is 7, not 10
(risk_tracker.py line 13; `app.py` passes 10 explicitly). -/
theorem default_capacity_is_seven :
    RiskTracker.init_default.history_size = 7 ∧
    RiskTracker.init_default.history_size ≠ 10 := by
  decide

/-- Claim C7 (amended): the history length never exceeds the configured
capacity — appending at full capacity evicts the oldest record first — and
the capacity defaults to 7 (not 10) when none is given; `app.py` constructs
its tracker with capacity 10 explicitly. -/
theorem tracker_fifo_bounded (t : RiskTracker) (l : String) (c : ℚ)
    (p : List ℚ) (hinv : t.history.length ≤ t.history_size) :
    (t.add_prediction l c p).history.length ≤ t.history_size ∧
    (t.add_prediction l c p).history_size = t.history_size ∧
    (0 < t.history_size → t.history.length = t.history_size →
      (t.add_prediction l c p).history = t.history.tail ++ [⟨l, c, p⟩]) ∧
    (t.history.length < t.history_size →
      (t.add_prediction l c p).history = t.history ++ [⟨l, c, p⟩]) ∧
    RiskTracker.init_default.history_size = 7 ∧
    RiskTracker.init_default.history = [] := by
  have hlen : (t.history ++ [(⟨l, c, p⟩ : PredictionRecord)]).length
      = t.history.length + 1 := by
    simp
  refine ⟨?_, rfl, ?_, ?_, rfl, rfl⟩
  · simp only [RiskTracker.add_prediction, hlen]
    split_ifs with h
    · rw [List.length_drop, hlen]
      omega
    · rw [hlen]
      omega
  · intro hpos heq
    simp only [RiskTracker.add_prediction, hlen]
    rw [if_pos (by omega)]
    have h1 : t.history.length + 1 - t.history_size = 1 := by omega
    rw [h1, List.drop_append_of_le_length (by omega), List.drop_one]
  · intro hlt
    simp only [RiskTracker.add_prediction, hlen]
    rw [if_neg (by omega)]

/-- Witness for C7: a capacity-2 tracker at full capacity evicts its oldest
record on append. -/
theorem tracker_fifo_bounded_witness :
    (fullTracker.add_prediction "Elevated" 1 []).history.length
        ≤ fullTracker.history_size ∧
    (fullTracker.add_prediction "Elevated" 1 []).history
        = fullTracker.history.tail ++ [⟨"Elevated", 1, []⟩] := by
  have H := tracker_fifo_bounded fullTracker "Elevated" 1 [] (by decide)
  exact ⟨H.1, H.2.2.1 (by decide) (by decide)⟩

/-! ## Claim C4 -/

/-- Any scenario string that is neither "increasing_risk" nor "improving"
leaves the risk factor at 0 on every day. -/
lemma riskFactorsFrom_no_drift (sc : String) (n : ℕ)
    (h1 : sc ≠ "increasing_risk") (h2 : sc ≠ "improving") :
    ∀ (fuel day : ℕ), riskFactorsFrom sc n day fuel 0 = List.replicate fuel 0 := by
  intro fuel
  induction fuel with
  | zero => intro day; rfl
  | succ k ih =>
    intro day
    have hstep : riskStep sc n day 0 = 0 := by
      simp only [riskStep, if_neg h1, if_neg h2]
      exact min_eq_left zero_le_one
    simp only [riskFactorsFrom, hstep, ih (day + 1), List.replicate_succ]

/-- Claim C4 counterexample: stream generation with an unknown scenario name
raises no error and produces exactly the "stable" risk factors (all zero). -/
theorem unknown_scenario_silently_stable :
    riskFactors 3 "definitely_unknown" = riskFactors 3 "stable" ∧
    riskFactors 3 "definitely_unknown" = [0, 0, 0] := by
  decide

/-- Claim C4 (amended): a scenario name outside {stable, increasing_risk,
improving} is not rejected; `generate_digital_phenotype_stream` silently
treats it exactly as the "stable" scenario (risk factor 0 every day). -/
theorem unknown_scenario_equals_stable (n : ℕ) (sc : String)
    (hs : sc ∉ (["stable", "increasing_risk", "improving"] : List String)) :
    riskFactors n sc = riskFactors n "stable" ∧
    riskFactors n sc = List.replicate n 0 := by
  simp only [List.mem_cons, List.mem_singleton, not_or] at hs
  obtain ⟨hstab, hinc, himp, -⟩ := hs
  have hself : riskFactors n sc = List.replicate n 0 := by
    simp only [riskFactors]
    exact riskFactorsFrom_no_drift sc n hinc himp n 0
  have hstable : riskFactors n "stable" = List.replicate n 0 := by
    simp only [riskFactors]
    exact riskFactorsFrom_no_drift "stable" n (by decide) (by decide) n 0
  exact ⟨hself.trans hstable.symm, hself⟩

/-- Witness for C4 at a concrete unknown scenario name and n_days = 4. -/
theorem unknown_scenario_equals_stable_witness :
    riskFactors 4 "mystery_mode" = riskFactors 4 "stable" ∧
    riskFactors 4 "mystery_mode" = List.replicate 4 0 :=
  unknown_scenario_equals_stable 4 "mystery_mode" (by decide)

/-! ## Claim C5 -/

/-- In the "increasing_risk" scenario the loop adds `0.8 / n_days` before
emitting each day's factor, so starting from `c` it emits
`c + (i+1) * (0.8 / n_days)` on the i-th remaining day (the `min · 1` clamp
never binds while the total stays ≤ 1). -/
lemma riskFactorsFrom_increasing (n : ℕ) :
    ∀ (fuel day : ℕ) (c : ℚ), 0 ≤ (8:ℚ)/10 / (n : ℚ) →
      c + fuel * ((8:ℚ)/10 / (n : ℚ)) ≤ 1 →
      riskFactorsFrom "increasing_risk" n day fuel c
        = (List.range fuel).map
            (fun i : ℕ => c + ((i : ℚ) + 1) * ((8:ℚ)/10 / (n : ℚ))) := by
  intro fuel
  induction fuel with
  | zero => intro day c _ _; rfl
  | succ k ih =>
    intro day c hst hbound
    have hkst : 0 ≤ (k : ℚ) * ((8:ℚ)/10 / (n : ℚ)) :=
      mul_nonneg (Nat.cast_nonneg k) hst
    have hcast : ((k + 1 : ℕ) : ℚ) = (k : ℚ) + 1 := by push_cast; ring
    rw [hcast] at hbound
    have hone : c + (8:ℚ)/10 / (n : ℚ) ≤ 1 := by nlinarith
    have hstep : riskStep "increasing_risk" n day c = c + (8:ℚ)/10 / (n : ℚ) := by
      simp only [riskStep, if_pos rfl]
      exact min_eq_left hone
    have hnext : c + (8:ℚ)/10 / (n : ℚ) + (k : ℚ) * ((8:ℚ)/10 / (n : ℚ)) ≤ 1 := by
      nlinarith
    simp only [riskFactorsFrom, hstep, ih (day + 1) _ hst hnext]
    rw [List.range_succ_eq_map]
    simp only [List.map_cons, List.map_map]
    congr 1
    · push_cast
      ring
    · refine List.map_congr_left fun a _ => ?_
      simp only [Function.comp_apply]
      push_cast
      ring

/-- Claim C5 counterexample: with n_days = 1 the increasing_risk ramp's day-0
value is 0.8, not 0 — the factor is incremented before the first day is
emitted, so the ramp never starts at 0. -/
theorem increasing_ramp_day0_nonzero :
    riskFactors 1 "increasing_risk" = [4/5] ∧ ((4:ℚ)/5 ≠ 0) := by
  constructor
  · norm_num [riskFactors, riskFactorsFrom, riskStep, min_def]
  · norm_num

/-- Claim C5 (amended): for n_days ≥ 1 under "increasing_risk" the per-day
risk factor is the linear ramp (d+1)·0.8/n_days for day d — 0.8/n_days on
day 0, rising to exactly 0.8 on the last day (the clamp to [0,1] never
binds) — and under "stable" it is constantly 0. -/
theorem increasing_ramp_and_stable_zero (n : ℕ) (hn : 1 ≤ n) :
    riskFactors n "increasing_risk"
      = (List.range n).map (fun d : ℕ => ((d : ℚ) + 1) * ((8:ℚ)/10 / (n : ℚ))) ∧
    (riskFactors n "increasing_risk").headD 0 = (8:ℚ)/10 / (n : ℚ) ∧
    (riskFactors n "increasing_risk").getLastD 0 = 8/10 ∧
    (∀ d, d < n → (riskFactors n "increasing_risk").getD d 0
      = ((d : ℚ) + 1) * ((8:ℚ)/10 / (n : ℚ))) ∧
    riskFactors n "stable" = List.replicate n 0 := by
  have hnq : (n : ℚ) ≠ 0 := Nat.cast_ne_zero.mpr (by omega)
  have hcancel : (n : ℚ) * ((8:ℚ)/10 / (n : ℚ)) = 8/10 := by
    field_simp
    ring
  have hst : 0 ≤ (8:ℚ)/10 / (n : ℚ) := by positivity
  have hmain : riskFactors n "increasing_risk"
      = (List.range n).map (fun d : ℕ => ((d : ℚ) + 1) * ((8:ℚ)/10 / (n : ℚ))) := by
    simp only [riskFactors]
    rw [riskFactorsFrom_increasing n n 0 0 hst (by rw [zero_add, hcancel]; norm_num)]
    refine List.map_congr_left fun a _ => ?_
    ring
  have hget : ∀ d, d < n → (riskFactors n "increasing_risk").getD d 0
      = ((d : ℚ) + 1) * ((8:ℚ)/10 / (n : ℚ)) := by
    intro d hd
    rw [hmain]
    simp [List.getD, List.getElem?_map, List.getElem?_range hd]
  refine ⟨hmain, ?_, ?_, hget, ?_⟩
  · have h0 := hget 0 (by omega)
    have hhead : (riskFactors n "increasing_risk").headD 0
        = (riskFactors n "increasing_risk").getD 0 0 := by
      cases riskFactors n "increasing_risk" <;> rfl
    rw [hhead, h0]
    norm_num
  · obtain ⟨m, rfl⟩ : ∃ m, n = m + 1 := ⟨n - 1, by omega⟩
    rw [hmain, List.range_succ, List.map_append]
    simp only [List.map_cons, List.map_nil, List.getLastD_concat]
    rw [show ((m : ℚ) + 1) = ((m + 1 : ℕ) : ℚ) by push_cast; ring]
    rw [show ((m + 1 : ℕ) : ℚ) * ((8:ℚ)/10 / ((m + 1 : ℕ) : ℚ)) = 8/10 from hcancel]
  · simp only [riskFactors]
    exact riskFactorsFrom_no_drift "stable" n (by decide) (by decide) n 0

/-- Witness for C5 at n_days = 2. -/
theorem increasing_ramp_and_stable_zero_witness :
    (1:ℕ) ≤ 2 ∧
    (riskFactors 2 "increasing_risk").getLastD 0 = 8/10 ∧
    riskFactors 2 "stable" = List.replicate 2 0 := by
  have H := increasing_ramp_and_stable_zero 2 (by norm_num)
  exact ⟨by norm_num, H.2.2.1, H.2.2.2.2⟩

/-! ## Claim C1 -/

/-- Claim C1 counterexample: in auto mode no floor is applied to the served
confidence.  With the model emitting the valid distribution
[0.34, 0.33, 0.33], the auto-mode `analyze` response serves confidence
0.34 < 0.4, outside the claimed interval [0.4, 1.0]. -/
theorem auto_mode_confidence_below_floor :
    ((34:ℚ)/100 + 33/100 + 33/100 = 1) ∧
    (analyze Mode.auto [] autoLowConfState).1.confidence = 34/100 ∧
    ¬ ((4:ℚ)/10 ≤ (analyze Mode.auto [] autoLowConfState).1.confidence) := by
  have hc : (analyze Mode.auto [] autoLowConfState).1.confidence = 34/100 := by
    rw [analyze_confidence_auto]
    show listMax [34/100, 33/100, 33/100] = 34/100
    rw [listMax_triple]
    norm_num [max_def]
  refine ⟨by norm_num, hc, ?_⟩
  rw [hc]
  norm_num

/-- Claim C1 (amended): the manual-mode served confidence lies in [0.4, 1];
the auto-mode served confidence is the raw maximum probability, which for a
distribution over the 3 labels lies in [1/3, 1] and can fall below 0.4. -/
theorem confidence_bounds_by_mode (s : SystemState) (mode : Mode)
    (f : List ℚ) (q0 q1 q2 : ℚ)
    (hm : s.models (s.scaler (inputUsed mode f s)) = [q0, q1, q2])
    (h0 : 0 ≤ q0) (h1 : 0 ≤ q1) (h2 : 0 ≤ q2) (hsum : q0 + q1 + q2 = 1) :
    (mode = Mode.manual →
      4/10 ≤ (analyze mode f s).1.confidence ∧
      (analyze mode f s).1.confidence ≤ 1) ∧
    (mode = Mode.auto →
      (analyze mode f s).1.confidence = max (max q0 q1) q2 ∧
      1/3 ≤ (analyze mode f s).1.confidence ∧
      (analyze mode f s).1.confidence ≤ 1) := by
  have hq0 : q0 ≤ max (max q0 q1) q2 := le_max_of_le_left (le_max_left _ _)
  have hq1 : q1 ≤ max (max q0 q1) q2 := le_max_of_le_left (le_max_right _ _)
  have hq2 : q2 ≤ max (max q0 q1) q2 := le_max_right _ _
  have hub : max (max q0 q1) q2 ≤ 1 :=
    max_le (max_le (by linarith) (by linarith)) (by linarith)
  have hlb : 1/3 ≤ max (max q0 q1) q2 := by linarith
  cases mode with
  | manual =>
    refine ⟨fun _ => ?_, fun h => Mode.noConfusion h⟩
    rw [show inputUsed Mode.manual f s = f from rfl] at hm
    rw [analyze_confidence_manual, hm, calibrate_fst]
    unfold manual_penalty
    exact ⟨le_max_left _ _, max_le (by norm_num) (by linarith)⟩
  | auto =>
    refine ⟨fun h => Mode.noConfusion h, fun _ => ?_⟩
    rw [analyze_confidence_auto, hm, calibrate_fst]
    exact ⟨rfl, hlb, hub⟩

/-- Witness for C1: a manual-mode call with distribution [0.5, 0.25, 0.25]
serves max(0.4, 0.5 - 0.15) = 0.4 ∈ [0.4, 1]. -/
theorem confidence_bounds_by_mode_witness :
    4/10 ≤ (analyze Mode.manual [] manualHalfConfState).1.confidence ∧
    (analyze Mode.manual [] manualHalfConfState).1.confidence ≤ 1 :=
  (confidence_bounds_by_mode manualHalfConfState Mode.manual [] (1/2) (1/4)
    (1/4) rfl (by norm_num) (by norm_num) (by norm_num) (by norm_num)).1 rfl

/-! ## Claim C3 -/

/-- Claim C3 (confirmed): `get_trend` returns "Insufficient Data" below 2
records; otherwise, over the severity scores of the last-3 window: all equal
→ "Stable", newest above oldest → "Increasing Trend", newest below oldest →
"Improving Trend", otherwise "Fluctuating".  In particular
[Low, Low, Moderate] ↦ "Increasing Trend", [Elevated, Moderate, Low] ↦
"Improving Trend", [Low, Low] ↦ "Stable". -/
theorem trend_classification (t : RiskTracker) :
    (t.history.length < 2 → t.get_trend = "Insufficient Data") ∧
    (2 ≤ t.history.length →
      ((∀ x ∈ trendScores t, x = (trendScores t).headD 0) →
        t.get_trend = "Stable") ∧
      (¬ (∀ x ∈ trendScores t, x = (trendScores t).headD 0) →
        (trendScores t).headD 0 < (trendScores t).getLastD 0 →
        t.get_trend = "Increasing Trend") ∧
      (¬ (∀ x ∈ trendScores t, x = (trendScores t).headD 0) →
        (trendScores t).getLastD 0 < (trendScores t).headD 0 →
        t.get_trend = "Improving Trend") ∧
      (¬ (∀ x ∈ trendScores t, x = (trendScores t).headD 0) →
        (trendScores t).getLastD 0 = (trendScores t).headD 0 →
        t.get_trend = "Fluctuating")) ∧
    (trackerOf ["Low", "Low", "Moderate"]).get_trend = "Increasing Trend" ∧
    (trackerOf ["Elevated", "Moderate", "Low"]).get_trend = "Improving Trend" ∧
    (trackerOf ["Low", "Low"]).get_trend = "Stable" ∧
    (trackerOf ["Low"]).get_trend = "Insufficient Data" := by
  refine ⟨?_, ?_, by decide, by decide, by decide, by decide⟩
  · intro h
    simp only [RiskTracker.get_trend, if_pos h]
  · intro h2
    have hlen : ¬ t.history.length < 2 := not_lt.mpr h2
    have hball : ∀ (hall : ∀ x ∈ trendScores t, x = (trendScores t).headD 0),
        (trendScores t).all (fun x => x = (trendScores t).headD 0) = true :=
      fun hall => List.all_eq_true.mpr fun x hx => decide_eq_true (hall x hx)
    have hbnall : ∀ (hnall : ¬ ∀ x ∈ trendScores t, x = (trendScores t).headD 0),
        (trendScores t).all (fun x => x = (trendScores t).headD 0) = false := by
      intro hnall
      cases hba : (trendScores t).all (fun x => x = (trendScores t).headD 0) with
      | false => rfl
      | true =>
        exact absurd
          (fun x hx => of_decide_eq_true (List.all_eq_true.mp hba x hx)) hnall
    refine ⟨?_, ?_, ?_, ?_⟩
    · intro hall
      simp only [RiskTracker.get_trend, if_neg hlen, hball hall, if_true]
    · intro hnall hlt
      simp only [RiskTracker.get_trend, if_neg hlen, hbnall hnall,
        Bool.false_eq_true, if_false, if_pos hlt]
    · intro hnall hlt
      simp only [RiskTracker.get_trend, if_neg hlen, hbnall hnall,
        Bool.false_eq_true, if_false, if_neg (not_lt.mpr hlt.le), if_pos hlt]
    · intro hnall heq
      simp only [RiskTracker.get_trend, if_neg hlen, hbnall hnall,
        Bool.false_eq_true, if_false, if_neg (not_lt.mpr heq.le),
        if_neg (not_lt.mpr heq.ge)]

/-- Witness for C3 at a single-record history. -/
theorem trend_classification_witness :
    (trackerOf ["Low"]).history.length < 2 ∧
    (trackerOf ["Low"]).get_trend = "Insufficient Data" :=
  ⟨by decide, (trend_classification (trackerOf ["Low"])).1 (by decide)⟩

/-! ## Claim C6 -/

lemma analyze_auto_current_day (f : List ℚ) (t : SystemState) :
    (analyze Mode.auto f t).2.current_day = t.current_day + 1 :=
  rfl

lemma analyze_auto_stream (f : List ℚ) (t : SystemState) :
    (analyze Mode.auto f t).2.simulation_stream = t.simulation_stream :=
  rfl

lemma autoIter_current_day :
    ∀ (n : ℕ) (s : SystemState), (autoIter n s).current_day = s.current_day + n := by
  intro n
  induction n with
  | zero => intro s; rfl
  | succ k ih =>
    intro s
    show (autoIter k (analyze Mode.auto [] s).2).current_day = _
    rw [ih, analyze_auto_current_day]
    omega

lemma autoIter_stream :
    ∀ (n : ℕ) (s : SystemState),
      (autoIter n s).simulation_stream = s.simulation_stream := by
  intro n
  induction n with
  | zero => intro s; rfl
  | succ k ih =>
    intro s
    show (autoIter k (analyze Mode.auto [] s).2).simulation_stream = _
    rw [ih, analyze_auto_stream]

/-- Claim C6 (confirmed): every auto-mode `analyze` call reads the stream row
at index `cursor % stream length` (always in range) and advances the cursor
by exactly 1; from cursor 0 over a 30-row stream, 30 calls advance the cursor
to 30 and the 31st call reads index 30 % 30 = 0. -/
theorem auto_cursor_wraps (s : SystemState) (h0 : s.current_day = 0)
    (hlen : s.simulation_stream.length = 30) :
    (∀ (t : SystemState) (f : List ℚ),
      (analyze Mode.auto f t).2.current_day = t.current_day + 1 ∧
      inputUsed Mode.auto f t
        = t.simulation_stream.getD
            (t.current_day % t.simulation_stream.length) [] ∧
      (0 < t.simulation_stream.length →
        t.current_day % t.simulation_stream.length
          < t.simulation_stream.length)) ∧
    (autoIter 30 s).current_day = 30 ∧
    (autoIter 30 s).current_day % (autoIter 30 s).simulation_stream.length
      = 0 := by
  refine ⟨fun t f =>
    ⟨analyze_auto_current_day f t, rfl, fun hpos => Nat.mod_lt _ hpos⟩, ?_, ?_⟩
  · rw [autoIter_current_day, h0]
  · rw [autoIter_current_day, autoIter_stream, h0, hlen]

/-- Witness for C6 at a concrete 30-row state. -/
theorem auto_cursor_wraps_witness :
    demoState.current_day = 0 ∧
    (autoIter 30 demoState).current_day = 30 ∧
    (autoIter 30 demoState).current_day
        % (autoIter 30 demoState).simulation_stream.length = 0 := by
  have H := auto_cursor_wraps demoState rfl (by simp [demoState])
  exact ⟨rfl, H.2.1, H.2.2⟩

/-! ## Claim C10 -/

lemma normalize_record_label (r : PredictionRecord) :
    (normalize_record r).label
      = if r.label = "Low" ∨ r.label = "Moderate" ∨ r.label = "Elevated"
        then r.label else "Low" :=
  rfl

lemma severity_map_normalize_record (r : PredictionRecord) :
    severity_map (normalize_record r).label = severity_map r.label := by
  rw [normalize_record_label]
  by_cases h : r.label = "Low" ∨ r.label = "Moderate" ∨ r.label = "Elevated"
  · rw [if_pos h]
  · rw [if_neg h]
    push_neg at h
    simp [severity_map, h.1, h.2.1, h.2.2]

lemma trendScores_normalize (t : RiskTracker) :
    trendScores (normalize_unknown_labels t) = trendScores t := by
  show ((t.history.map normalize_record).drop
      ((t.history.map normalize_record).length - 3)).map
        (fun item => severity_map item.label)
    = (t.history.drop (t.history.length - 3)).map
        (fun item => severity_map item.label)
  rw [List.length_map, ← List.map_drop, List.map_map]
  exact List.map_congr_left fun r _ => severity_map_normalize_record r

/-- Claim C10 (confirmed): a history label outside {Low, Moderate, Elevated}
does not make `get_trend` fail — it is mapped to severity 0 and treated
exactly as "Low": replacing every unknown label by "Low" leaves the trend
unchanged. -/
theorem unknown_label_counts_as_low (t : RiskTracker) (l : String)
    (hl : l ≠ "Low" ∧ l ≠ "Moderate" ∧ l ≠ "Elevated") :
    severity_map l = 0 ∧
    severity_map l = severity_map "Low" ∧
    (normalize_unknown_labels t).get_trend = t.get_trend := by
  obtain ⟨hL, hM, hE⟩ := hl
  have h0 : severity_map l = 0 := by simp [severity_map, hL, hM, hE]
  refine ⟨h0, by rw [h0]; rfl, ?_⟩
  unfold RiskTracker.get_trend
  rw [trendScores_normalize,
    show (normalize_unknown_labels t).history.length = t.history.length from
      List.length_map t.history normalize_record]

/-- Witness for C10 at a history containing the unknown label "Glitch". -/
theorem unknown_label_counts_as_low_witness :
    severity_map "Glitch" = 0 ∧
    (normalize_unknown_labels oddTracker).get_trend = oddTracker.get_trend := by
  have H := unknown_label_counts_as_low oddTracker "Glitch" (by decide)
  exact ⟨H.1, H.2.2⟩

end EthicalAI
